import Mathlib

/-!
# Verification of the PAI panel protocol core (`paradox/hardware/panel.py`)

Shallow embedding of the handshake frame codecs, the password encoder,
the message dispatcher, the label loader and the status dispatcher, with
theorems settling the specification claims.

Bytes are modelled as `Nat` with explicit `< 256` validity where needed.
The checksum function `calculate_checksum` lives in `paradox/hardware/common.py`
(not part of the reviewed source); per the spec it is an arbitrary deterministic
pure function from the payload bytes to one byte, so every theorem below is
parametric in `cks : List Nat → Nat`.
-/

namespace PAI

/-- Failure modes of parsing: `indexError` models a Python `IndexError` raised by
direct subscripting in `parse_message`; the others model `construct` exceptions
raised while a frame `Struct` parses (`StreamError` for a short buffer,
`ConstError` for a discriminant/constant mismatch, `ChecksumError` for a bad
trailing checksum byte). -/
inductive PErr where
  | indexError
  | streamError
  | constMismatch
  | checksumMismatch
deriving DecidableEq, Repr

/-- Read one byte off the front of the stream (a `construct` fixed-size read). -/
def readByte : List Nat → Except PErr (Nat × List Nat)
  | [] => .error .streamError
  | b :: r => .ok (b, r)

/-- Read `n` bytes off the front of the stream. -/
def readN (n : Nat) (l : List Nat) : Except PErr (List Nat × List Nat) :=
  if n ≤ l.length then .ok (l.take n, l.drop n) else .error .streamError

theorem readByte_cons (b : Nat) (r : List Nat) : readByte (b :: r) = .ok (b, r) := rfl

theorem readN_append (l r : List Nat) : readN l.length (l ++ r) = .ok (l, r) := by
  simp [readN, List.take_left, List.drop_left]

theorem readN_of_eq_length {n : Nat} (l r : List Nat) (h : l.length = n) :
    readN n (l ++ r) = .ok (l, r) := h ▸ readN_append l r

/-! ## Password encoder (`Panel.encode_password`) -/

/-- The dynamically-typed `password` argument of `encode_password`:
`None`, an `int`, a `str`, or a `bytes` value (bytes as their numeric values). -/
inductive PwInput where
  | none
  | int (n : Nat)
  | str (s : String)
  | bytes (b : List Nat)
deriving DecidableEq, Repr

/-- `password is None or password in [b'0000', '0000', 0]`: Python `in` uses `==`,
which across these types only matches a value of the same kind. -/
def isNoPassword : PwInput → Bool
  | .none => true
  | .int n => n == 0
  | .str s => s == "0000"
  | .bytes b => b == [0x30, 0x30, 0x30, 0x30]

/-- Left-pad a string with '0' to the given width (`str.zfill` on a numeral). -/
def zfill (w : Nat) (s : String) : String :=
  ⟨List.replicate (w - s.length) '0' ++ s.data⟩

/-- The character sequence the validation and the digit loop operate on:
an `int` is first normalised by `str(password).zfill(4)`; `str` and `bytes`
already support `len`, `isdigit` and `int(...)` directly (bytes viewed as
their ASCII characters). -/
def pwChars : PwInput → List Char
  | .none => []
  | .int n => (zfill 4 (toString n)).data
  | .str s => s.data
  | .bytes b => b.map Char.ofNat

/-- Numeric value of a digit string (`int(password)`). -/
def digitsToNat (cs : List Char) : Nat :=
  cs.foldl (fun a c => a * 10 + (c.toNat - 48)) 0

/-- The `while i > 0` packing loop of `encode_password`, recursing on `i`.
`ip` is `int_password`, `res` the 2-byte output buffer. -/
def encLoop (ip i i2 : Nat) (res : List Nat) : List Nat :=
  match i with
  | 0 => res
  | i' + 1 =>
    let b := ip % 10
    let b := if b = 0 then 0x0A else b
    let ip' := ip / 10
    if (i' + 1) % 2 = 0 then
      encLoop ip' i' i2 (res.set i2 b)
    else
      encLoop ip' i' (i2 - 1) (res.set i2 ((b <<< 4 ||| res.getD i2 0) &&& 0xFF))

/-- `Panel.encode_password`, with Python exceptions as `Except.error`. -/
def encode_password (password : PwInput) : Except String (List Nat) :=
  if isNoPassword password then .ok [0x00, 0x00]
  else
    let pw := pwChars password
    if pw.length ≠ 4 then
      .error ("Password length must be equal to 4. Got " ++ toString pw.length)
    else if ¬ pw.all Char.isDigit then
      .error ("Not supported password " ++ String.mk pw)
    else
      let int_password := digitsToNat pw
      let i := min 4 pw.length
      let i2 := i / 2 - 1
      .ok (encLoop int_password i i2 [0, 0])

/-- Digit-to-nibble remapping: digit `0` becomes `0x0A`. -/
def pwNibble (d : Nat) : Nat := if d = 0 then 0x0A else d

/-- Nibble packing: the second digit of a pair goes to the high nibble. -/
theorem pack_eq : ∀ b < 16, ∀ r < 16, (b <<< 4 ||| r) &&& 0xFF = 16 * b + r := by decide

theorem pwNibble_lt (d : Nat) (h : d < 10) : pwNibble d < 16 := by
  unfold pwNibble; split <;> omega

/-- Characterisation of the packing loop on a 4-position run. -/
theorem encLoop_eq (n : Nat) :
    encLoop n 4 1 [0, 0] =
      [16 * pwNibble (n / 1000 % 10) + pwNibble (n / 100 % 10),
       16 * pwNibble (n / 10 % 10) + pwNibble (n % 10)] := by
  have hP : ∀ b r : Nat, (pwNibble (b % 10) <<< 4 ||| pwNibble (r % 10)) &&& 0xFF =
      16 * pwNibble (b % 10) + pwNibble (r % 10) := fun b r =>
    pack_eq _ (pwNibble_lt _ (Nat.mod_lt _ (by omega))) _
      (pwNibble_lt _ (Nat.mod_lt _ (by omega)))
  have step : encLoop n 4 1 [0, 0] =
      [(pwNibble (n / 10 / 10 / 10 % 10) <<< 4 ||| pwNibble (n / 10 / 10 % 10)) &&& 0xFF,
       (pwNibble (n / 10 % 10) <<< 4 ||| pwNibble (n % 10)) &&& 0xFF] := rfl
  have e1 : n / 10 / 10 = n / 100 := by omega
  have e2 : n / 100 / 10 = n / 1000 := by omega
  rw [step, e1, e2, hP (n / 1000) (n / 100), hP (n / 10) n]

/-! ## Frame definitions

Each `construct` `Struct` is embedded as a `_payload` builder (the 36 raw
payload bytes built from the structured fields in declared order), a `_build`
function (payload plus trailing checksum byte, as built by the `Checksum`
subconstruct), and a `_parse` function (sequential stream reads mirroring the
declared layout: `Const` fields checked, `Padding` skipped unchecked, and the
checksum byte compared against `cks` of the raw bytes captured by `RawCopy`,
i.e. the first 36 bytes of the stream). -/

theorem ebind_ok {α β : Type} (a : α) (f : α → Except PErr β) :
    (Except.ok a >>= f) = f a := rfl

theorem epure {α : Type} (a : α) : (pure a : Except PErr α) = .ok a := rfl

theorem ebind_err {α β : Type} (e : PErr) (f : α → Except PErr β) :
    ((Except.error e : Except PErr α) >>= f) = .error e := rfl

theorem ethrow {α : Type} (e : PErr) : (throw e : Except PErr α) = .error e := rfl

theorem emap_error {α β : Type} (f : α → β) (e : PErr) :
    (f <$> (Except.error e : Except PErr α)) = .error e := rfl

theorem take_append_of_length {n : Nat} (p : List Nat) (c : Nat) (h : p.length = n) :
    (p ++ [c]).take n = p := by rw [← h, List.take_left]

/-- `InitiateCommunication` has no free structured fields: both `po` nibbles
are `Const` and the rest of the payload is `Padding`. -/
abbrev ICFields := Unit

/-- Raw payload: byte 0 is command nibble 7 over reserved nibble 2 (`0x72`),
then 35 zero padding bytes. -/
def InitiateCommunication_payload : List Nat := 0x72 :: List.replicate 35 0

def InitiateCommunication_build (cks : List Nat → Nat) : List Nat :=
  InitiateCommunication_payload ++ [cks InitiateCommunication_payload]

def InitiateCommunication_parse (cks : List Nat → Nat) (buf : List Nat) :
    Except PErr ICFields := do
  let (b0, r) ← readByte buf
  if b0 / 16 ≠ 7 then throw .constMismatch
  if b0 % 16 ≠ 2 then throw .constMismatch
  let (_pad, r) ← readN 35 r
  let (c, _) ← readByte r
  if c ≠ cks (buf.take 36) then throw .checksumMismatch
  pure ()

/-- `StartCommunication` free fields (`source_id` is declared via
`CommunicationSourceIDEnum`, an enum over `Int8ub` whose integer value is the
wire byte; defaults only affect building from a partial container). -/
structure SCFields where
  source_id : Nat
  user_id_high : Nat
  user_id_low : Nat
deriving DecidableEq, Repr

def StartCommunication_payload (f : SCFields) : List Nat :=
  0x5F :: 0x20 :: (List.replicate 31 0 ++ [f.source_id, f.user_id_high, f.user_id_low])

def StartCommunication_build (cks : List Nat → Nat) (f : SCFields) : List Nat :=
  StartCommunication_payload f ++ [cks (StartCommunication_payload f)]

def StartCommunication_parse (cks : List Nat → Nat) (buf : List Nat) :
    Except PErr SCFields := do
  let (b0, r) ← readByte buf
  if b0 ≠ 0x5F then throw .constMismatch
  let (v, r) ← readByte r
  if v ≠ 0x20 then throw .constMismatch
  let (_pad, r) ← readN 31 r
  let (source_id, r) ← readByte r
  let (user_id_high, r) ← readByte r
  let (user_id_low, r) ← readByte r
  let (c, _) ← readByte r
  if c ≠ cks (buf.take 36) then throw .checksumMismatch
  pure ⟨source_id, user_id_high, user_id_low⟩

/-- `CloseConnection` structured view: only the `length` byte; it is a
`Rebuild` field, recomputed on build as `fields.sizeof + checksum.sizeof`
(36 + 1 = 37), and read back verbatim on parse. -/
structure CCFields where
  length : Nat
deriving DecidableEq, Repr

def CloseConnection_payload : List Nat := 0x70 :: 37 :: List.replicate 34 0

def CloseConnection_build (cks : List Nat → Nat) : List Nat :=
  CloseConnection_payload ++ [cks CloseConnection_payload]

def CloseConnection_parse (cks : List Nat → Nat) (buf : List Nat) :
    Except PErr CCFields := do
  let (b0, r) ← readByte buf
  if b0 ≠ 0x70 then throw .constMismatch
  let (len, r) ← readByte r
  let (_pad, r) ← readN 34 r
  let (c, _) ← readByte r
  if c ≠ cks (buf.take 36) then throw .checksumMismatch
  pure ⟨len⟩

theorem IC_payload_length : InitiateCommunication_payload.length = 36 := by
  simp [InitiateCommunication_payload]

theorem SC_payload_length (f : SCFields) : (StartCommunication_payload f).length = 36 := by
  simp [StartCommunication_payload]

theorem CC_payload_length : CloseConnection_payload.length = 36 := by
  simp [CloseConnection_payload]

theorem IC_parse_build (cks : List Nat → Nat) :
    InitiateCommunication_parse cks (InitiateCommunication_build cks) = .ok () := by
  have ht : (InitiateCommunication_payload ++ [cks InitiateCommunication_payload]).take 36 =
      InitiateCommunication_payload := take_append_of_length _ _ IC_payload_length
  simp [InitiateCommunication_parse, InitiateCommunication_build, ht,
    InitiateCommunication_payload, readByte, readN, ebind_ok, epure]

theorem SC_parse_build (cks : List Nat → Nat) (f : SCFields) :
    StartCommunication_parse cks (StartCommunication_build cks f) = .ok f := by
  have ht : (StartCommunication_payload f ++ [cks (StartCommunication_payload f)]).take 36 =
      StartCommunication_payload f := take_append_of_length _ _ (SC_payload_length f)
  simp [StartCommunication_parse, StartCommunication_build, ht,
    StartCommunication_payload, readByte, readN, ebind_ok, epure]

theorem CC_parse_build (cks : List Nat → Nat) :
    CloseConnection_parse cks (CloseConnection_build cks) = .ok ⟨37⟩ := by
  have ht : (CloseConnection_payload ++ [cks CloseConnection_payload]).take 36 =
      CloseConnection_payload := take_append_of_length _ _ CC_payload_length
  simp [CloseConnection_parse, CloseConnection_build, ht,
    CloseConnection_payload, readByte, readN, ebind_ok, epure]

/-- Modelled from the spec: `HexInt` (defined in `paradox/hardware/common.py`,
which is not part of the reviewed source) is a byte adapter whose decoded
value reads the byte's two hex nibbles as a 2-digit decimal number
("2-digit-BCD-as-hex display value"). Decode direction. -/
def hexIntDecode (b : Nat) : Nat := 10 * (b / 16) + b % 16

/-- Modelled from the spec: `HexInt` encode direction (see `hexIntDecode`). -/
def hexIntEncode (v : Nat) : Nat := 16 * (v / 10) + v % 10

theorem hexInt_roundtrip (v : Nat) (h : v ≤ 99) : hexIntDecode (hexIntEncode v) = v := by
  unfold hexIntDecode hexIntEncode; omega

/-- `InitiateCommunicationResponse` free structured fields, in declared order.
`product_id` and `talker` are enums over `Int8ub`; their wire byte is the
field value here (the enum only renames byte values, and `construct` keeps
unmapped values as integers). `application_*` are `HexInt` display values. -/
structure ICRFields where
  message_center : Nat
  protocol_id : Nat
  protocol_version : Nat
  protocol_revision : Nat
  protocol_build : Nat
  family_id : Nat
  product_id : Nat
  talker : Nat
  application_version : Nat
  application_revision : Nat
  application_build : Nat
  serial_number : List Nat
  hardware_version : Nat
  hardware_revision : Nat
  bootloader_version : Nat
  bootloader_revision : Nat
  bootloader_build : Nat
  bootloader_day : Nat
  bootloader_month : Nat
  bootloader_year : Nat
  processor_id : Nat
  encryption_id : Nat
  reserved0 : List Nat
  label : List Nat
deriving DecidableEq, Repr

/-- Valid structured field combinations: nibble/byte/display-value ranges and
the declared widths of the `Bytes(n)` fields. -/
def ICRValid (f : ICRFields) : Prop :=
  f.message_center < 16 ∧ f.protocol_id < 256 ∧ f.protocol_version < 256 ∧
  f.protocol_revision < 256 ∧ f.protocol_build < 256 ∧ f.family_id < 256 ∧
  f.product_id < 256 ∧ f.talker < 256 ∧
  f.application_version ≤ 99 ∧ f.application_revision ≤ 99 ∧ f.application_build ≤ 99 ∧
  f.serial_number.length = 4 ∧ (∀ b ∈ f.serial_number, b < 256) ∧
  f.hardware_version < 256 ∧ f.hardware_revision < 256 ∧
  f.bootloader_version < 256 ∧ f.bootloader_revision < 256 ∧ f.bootloader_build < 256 ∧
  f.bootloader_day < 256 ∧ f.bootloader_month < 256 ∧ f.bootloader_year < 256 ∧
  f.processor_id < 256 ∧ f.encryption_id < 256 ∧
  f.reserved0.length = 2 ∧ (∀ b ∈ f.reserved0, b < 256) ∧
  f.label.length = 8 ∧ (∀ b ∈ f.label, b < 256)

instance (f : ICRFields) : Decidable (ICRValid f) := by unfold ICRValid; infer_instance

def InitiateCommunicationResponse_payload (f : ICRFields) : List Nat :=
  (7 * 16 + f.message_center) :: 0xFF :: f.protocol_id :: f.protocol_version ::
  f.protocol_revision :: f.protocol_build :: f.family_id :: f.product_id ::
  f.talker :: hexIntEncode f.application_version :: hexIntEncode f.application_revision ::
  hexIntEncode f.application_build ::
  (f.serial_number ++ f.hardware_version :: f.hardware_revision ::
   f.bootloader_version :: f.bootloader_revision :: f.bootloader_build ::
   f.bootloader_day :: f.bootloader_month :: f.bootloader_year ::
   f.processor_id :: f.encryption_id :: (f.reserved0 ++ f.label))

def InitiateCommunicationResponse_build (cks : List Nat → Nat) (f : ICRFields) : List Nat :=
  InitiateCommunicationResponse_payload f ++ [cks (InitiateCommunicationResponse_payload f)]

def InitiateCommunicationResponse_parse (cks : List Nat → Nat) (buf : List Nat) :
    Except PErr ICRFields := do
  let (b0, r) ← readByte buf
  if b0 / 16 ≠ 7 then throw .constMismatch
  let message_center := b0 % 16
  let (np, r) ← readByte r
  if np ≠ 0xFF then throw .constMismatch
  let (protocol_id, r) ← readByte r
  let (protocol_version, r) ← readByte r
  let (protocol_revision, r) ← readByte r
  let (protocol_build, r) ← readByte r
  let (family_id, r) ← readByte r
  let (product_id, r) ← readByte r
  let (talker, r) ← readByte r
  let (av, r) ← readByte r
  let (ar, r) ← readByte r
  let (ab, r) ← readByte r
  let (serial_number, r) ← readN 4 r
  let (hardware_version, r) ← readByte r
  let (hardware_revision, r) ← readByte r
  let (bootloader_version, r) ← readByte r
  let (bootloader_revision, r) ← readByte r
  let (bootloader_build, r) ← readByte r
  let (bootloader_day, r) ← readByte r
  let (bootloader_month, r) ← readByte r
  let (bootloader_year, r) ← readByte r
  let (processor_id, r) ← readByte r
  let (encryption_id, r) ← readByte r
  let (reserved0, r) ← readN 2 r
  let (label, r) ← readN 8 r
  let (c, _) ← readByte r
  if c ≠ cks (buf.take 36) then throw .checksumMismatch
  pure ⟨message_center, protocol_id, protocol_version, protocol_revision,
    protocol_build, family_id, product_id, talker, hexIntDecode av, hexIntDecode ar,
    hexIntDecode ab, serial_number, hardware_version, hardware_revision,
    bootloader_version, bootloader_revision, bootloader_build, bootloader_day,
    bootloader_month, bootloader_year, processor_id, encryption_id, reserved0, label⟩

theorem ICR_payload_length (f : ICRFields) (h4 : f.serial_number.length = 4)
    (h2 : f.reserved0.length = 2) (h8 : f.label.length = 8) :
    (InitiateCommunicationResponse_payload f).length = 36 := by
  simp [InitiateCommunicationResponse_payload, h4, h2, h8]

set_option maxHeartbeats 2000000 in
theorem ICR_parse_build (cks : List Nat → Nat) (f : ICRFields) (h : ICRValid f) :
    InitiateCommunicationResponse_parse cks (InitiateCommunicationResponse_build cks f) =
      .ok f := by
  obtain ⟨hmc, _, _, _, _, _, _, _, hav, har, hab, hsn, _, _, _, _, _, _, _, _, _, _, _,
    hr0, _, hlb, _⟩ := h
  have ht : (InitiateCommunicationResponse_payload f ++
      [cks (InitiateCommunicationResponse_payload f)]).take 36 =
      InitiateCommunicationResponse_payload f :=
    take_append_of_length _ _ (ICR_payload_length f hsn hr0 hlb)
  have hdiv : (7 * 16 + f.message_center) / 16 = 7 := by omega
  have hmod : (7 * 16 + f.message_center) % 16 = f.message_center := by omega
  simp [InitiateCommunicationResponse_parse, InitiateCommunicationResponse_build, ht,
    InitiateCommunicationResponse_payload, readByte, readN_of_eq_length, hsn, hr0, hlb,
    hdiv, hmod, hexInt_roundtrip, hav, har, hab, ebind_ok, epure]
  intro hc
  exact absurd (congrArg cks (by
    simp [List.take_append_eq_append_take, List.take_of_length_le, hsn, hr0, hlb])) hc

/-- A `Flag` bit on the wire. -/
def flagBit (b : Bool) : Nat := if b then 1 else 0

/-- `StartCommunicationResponse` free structured fields, in declared order.
The four `po.status` flags occupy the low nibble of byte 0 (MSB first:
reserved, alarm_reporting_pending, Winload_connected, NeWare_connected);
the transceiver status byte holds a 6-bit unused field over the
noise_floor_high and constant_carrier flags. `_not_usedN` regions are
`Bytes(n)` fields, so they are part of the structured view. -/
structure SCRFields where
  reserved : Bool
  alarm_reporting_pending : Bool
  Winload_connected : Bool
  NeWare_connected : Bool
  not_used0 : List Nat
  product_id : Nat
  firmware_version : Nat
  firmware_revision : Nat
  firmware_build : Nat
  panel_id : Nat
  not_used1 : List Nat
  transceiver_firmware_build : Nat
  transceiver_family : Nat
  transceiver_firmware_version : Nat
  transceiver_firmware_revision : Nat
  transceiver_noise_floor_level : Nat
  transceiver_status_not_used : Nat
  transceiver_noise_floor_high : Bool
  transceiver_constant_carrier : Bool
  transceiver_hardware_revision : Nat
  not_used2 : List Nat
deriving DecidableEq, Repr

def SCRValid (f : SCRFields) : Prop :=
  f.not_used0.length = 3 ∧ (∀ b ∈ f.not_used0, b < 256) ∧
  f.product_id < 256 ∧ f.firmware_version < 256 ∧ f.firmware_revision < 256 ∧
  f.firmware_build < 256 ∧ f.panel_id < 65536 ∧
  f.not_used1.length = 5 ∧ (∀ b ∈ f.not_used1, b < 256) ∧
  f.transceiver_firmware_build < 256 ∧ f.transceiver_family < 256 ∧
  f.transceiver_firmware_version < 256 ∧ f.transceiver_firmware_revision < 256 ∧
  f.transceiver_noise_floor_level < 256 ∧ f.transceiver_status_not_used < 64 ∧
  f.transceiver_hardware_revision < 256 ∧
  f.not_used2.length = 14 ∧ (∀ b ∈ f.not_used2, b < 256)

instance (f : SCRFields) : Decidable (SCRValid f) := by unfold SCRValid; infer_instance

/-- Byte 0: command nibble 0 over the four status flag bits. -/
def SCR_byte0 (f : SCRFields) : Nat :=
  8 * flagBit f.reserved + 4 * flagBit f.alarm_reporting_pending +
    2 * flagBit f.Winload_connected + flagBit f.NeWare_connected

/-- Transceiver status byte: 6 unused bits over the two flags. -/
def SCR_trStatus (f : SCRFields) : Nat :=
  4 * f.transceiver_status_not_used + 2 * flagBit f.transceiver_noise_floor_high +
    flagBit f.transceiver_constant_carrier

def StartCommunicationResponse_payload (f : SCRFields) : List Nat :=
  SCR_byte0 f ::
  (f.not_used0 ++ f.product_id :: f.firmware_version :: f.firmware_revision ::
   f.firmware_build :: (f.panel_id / 256) :: (f.panel_id % 256) ::
   (f.not_used1 ++ f.transceiver_firmware_build :: f.transceiver_family ::
    f.transceiver_firmware_version :: f.transceiver_firmware_revision ::
    f.transceiver_noise_floor_level :: SCR_trStatus f ::
    f.transceiver_hardware_revision :: f.not_used2))

def StartCommunicationResponse_build (cks : List Nat → Nat) (f : SCRFields) : List Nat :=
  StartCommunicationResponse_payload f ++ [cks (StartCommunicationResponse_payload f)]

def StartCommunicationResponse_parse (cks : List Nat → Nat) (buf : List Nat) :
    Except PErr SCRFields := do
  let (b0, r) ← readByte buf
  if b0 / 16 ≠ 0 then throw .constMismatch
  let reserved := b0 / 8 % 2 == 1
  let alarm_reporting_pending := b0 / 4 % 2 == 1
  let Winload_connected := b0 / 2 % 2 == 1
  let NeWare_connected := b0 % 2 == 1
  let (not_used0, r) ← readN 3 r
  let (product_id, r) ← readByte r
  let (firmware_version, r) ← readByte r
  let (firmware_revision, r) ← readByte r
  let (firmware_build, r) ← readByte r
  let (panel_hi, r) ← readByte r
  let (panel_lo, r) ← readByte r
  let (not_used1, r) ← readN 5 r
  let (transceiver_firmware_build, r) ← readByte r
  let (transceiver_family, r) ← readByte r
  let (transceiver_firmware_version, r) ← readByte r
  let (transceiver_firmware_revision, r) ← readByte r
  let (transceiver_noise_floor_level, r) ← readByte r
  let (st, r) ← readByte r
  let (transceiver_hardware_revision, r) ← readByte r
  let (not_used2, r) ← readN 14 r
  let (c, _) ← readByte r
  if c ≠ cks (buf.take 36) then throw .checksumMismatch
  pure ⟨reserved, alarm_reporting_pending, Winload_connected, NeWare_connected,
    not_used0, product_id, firmware_version, firmware_revision, firmware_build,
    256 * panel_hi + panel_lo, not_used1, transceiver_firmware_build,
    transceiver_family, transceiver_firmware_version, transceiver_firmware_revision,
    transceiver_noise_floor_level, st / 4, st / 2 % 2 == 1, st % 2 == 1,
    transceiver_hardware_revision, not_used2⟩

theorem SCR_payload_length (f : SCRFields) (h3 : f.not_used0.length = 3)
    (h5 : f.not_used1.length = 5) (h14 : f.not_used2.length = 14) :
    (StartCommunicationResponse_payload f).length = 36 := by
  simp [StartCommunicationResponse_payload, h3, h5, h14]

theorem SCR_byte0_div16 (f : SCRFields) : SCR_byte0 f / 16 = 0 := by
  unfold SCR_byte0 flagBit
  cases f.reserved <;> cases f.alarm_reporting_pending <;>
    cases f.Winload_connected <;> cases f.NeWare_connected <;> simp

theorem SCR_byte0_bit3 (f : SCRFields) : (SCR_byte0 f / 8 % 2 == 1) = f.reserved := by
  unfold SCR_byte0 flagBit
  cases f.reserved <;> cases f.alarm_reporting_pending <;>
    cases f.Winload_connected <;> cases f.NeWare_connected <;> simp

theorem SCR_byte0_bit2 (f : SCRFields) :
    (SCR_byte0 f / 4 % 2 == 1) = f.alarm_reporting_pending := by
  unfold SCR_byte0 flagBit
  cases f.reserved <;> cases f.alarm_reporting_pending <;>
    cases f.Winload_connected <;> cases f.NeWare_connected <;> simp

theorem SCR_byte0_bit1 (f : SCRFields) :
    (SCR_byte0 f / 2 % 2 == 1) = f.Winload_connected := by
  unfold SCR_byte0 flagBit
  cases f.reserved <;> cases f.alarm_reporting_pending <;>
    cases f.Winload_connected <;> cases f.NeWare_connected <;> simp

theorem SCR_byte0_bit0 (f : SCRFields) : (SCR_byte0 f % 2 == 1) = f.NeWare_connected := by
  unfold SCR_byte0 flagBit
  cases f.reserved <;> cases f.alarm_reporting_pending <;>
    cases f.Winload_connected <;> cases f.NeWare_connected <;> simp

theorem SCR_trStatus_div4 (f : SCRFields) : SCR_trStatus f / 4 = f.transceiver_status_not_used := by
  unfold SCR_trStatus flagBit
  cases f.transceiver_noise_floor_high <;> cases f.transceiver_constant_carrier <;>
    simp <;> omega

theorem SCR_trStatus_bit1 (f : SCRFields) :
    (SCR_trStatus f / 2 % 2 == 1) = f.transceiver_noise_floor_high := by
  unfold SCR_trStatus flagBit
  cases f.transceiver_noise_floor_high <;> cases f.transceiver_constant_carrier <;> simp <;>
    omega

theorem SCR_trStatus_bit0 (f : SCRFields) :
    (SCR_trStatus f % 2 == 1) = f.transceiver_constant_carrier := by
  unfold SCR_trStatus flagBit
  cases f.transceiver_noise_floor_high <;> cases f.transceiver_constant_carrier <;> simp <;>
    omega

set_option maxHeartbeats 2000000 in
theorem SCR_parse_build (cks : List Nat → Nat) (f : SCRFields) (h : SCRValid f) :
    StartCommunicationResponse_parse cks (StartCommunicationResponse_build cks f) =
      .ok f := by
  obtain ⟨h3, _, _, _, _, _, _, h5, _, _, _, _, _, _, _, _, h14, _⟩ := h
  have ht : (StartCommunicationResponse_payload f ++
      [cks (StartCommunicationResponse_payload f)]).take 36 =
      StartCommunicationResponse_payload f :=
    take_append_of_length _ _ (SCR_payload_length f h3 h5 h14)
  have hpanel : 256 * (f.panel_id / 256) + f.panel_id % 256 = f.panel_id := by omega
  simp [StartCommunicationResponse_parse, StartCommunicationResponse_build, ht,
    StartCommunicationResponse_payload, readByte, readN_of_eq_length, h3, h5, h14,
    SCR_byte0_div16, SCR_byte0_bit3, SCR_byte0_bit2, SCR_byte0_bit1, SCR_byte0_bit0,
    SCR_trStatus_div4, SCR_trStatus_bit1, SCR_trStatus_bit0, hpanel, ebind_ok, epure]
  intro hc
  exact absurd (congrArg cks (by
    simp [List.take_append_eq_append_take, List.take_of_length_le, h3, h5, h14])) hc

theorem build_get36 (p : List Nat) (c : Nat) (h : p.length = 36) :
    (p ++ [c]).get? 36 = some c := by
  rw [← h, List.get?_concat_length]

/-! ## Message dispatcher (`Panel.parse_message`) -/

/-- A frame container returned by `Panel.parse_message` (its structured
field view; `parse_message` never dispatches `CloseConnection`). -/
inductive ParsedMsg where
  | ic (f : ICFields)
  | icr (f : ICRFields)
  | sc (f : SCFields)
  | scr (f : SCRFields)
deriving DecidableEq, Repr

/-- A frame parser's outcome lifted into the dispatcher's return type:
Python's `return Frame.parse(message)` propagates parse exceptions. -/
def liftParse {α : Type} (mk : α → ParsedMsg) :
    Except PErr α → Except PErr (Option ParsedMsg)
  | .ok f => .ok (some (mk f))
  | .error e => .error e

/-- Python subscript `message[i]`: raises `IndexError` when out of range. -/
def pyIndex (l : List Nat) (i : Nat) : Except PErr Nat :=
  match l.get? i with
  | some b => .ok b
  | none => .error .indexError

/-- `Panel.parse_message(message, direction='topanel')`.

`None` or empty buffers yield `None` up front.  For `direction == 'topanel'`
the two host-to-panel discriminants are tried (with Python's short-circuit
`and`: `message[1]` is only subscripted when `message[0] == 0x72`); there is
no trailing `else`, so a fall-through returns `None`.  Any other direction
string takes the panel-to-host arm, where `message[4]` is only subscripted
when `message[0] == 0x00`. -/
def parse_message (cks : List Nat → Nat) (message : Option (List Nat))
    (direction : String) : Except PErr (Option ParsedMsg) :=
  match message with
  | none => .ok none
  | some msg =>
    if msg.length = 0 then .ok none
    else if direction = "topanel" then do
      let b0 ← pyIndex msg 0
      if b0 = 0x72 then do
        let b1 ← pyIndex msg 1
        if b1 = 0 then liftParse .ic (InitiateCommunication_parse cks msg)
        else if b0 = 0x5F then liftParse .sc (StartCommunication_parse cks msg)
        else .ok none
      else if b0 = 0x5F then liftParse .sc (StartCommunication_parse cks msg)
      else .ok none
    else do
      let b0 ← pyIndex msg 0
      if b0 = 0x72 then do
        let b1 ← pyIndex msg 1
        if b1 = 0xFF then liftParse .icr (InitiateCommunicationResponse_parse cks msg)
        else if b0 = 0 then do
          let b4 ← pyIndex msg 4
          if b4 > 0 then liftParse .scr (StartCommunicationResponse_parse cks msg)
          else .ok none
        else .ok none
      else if b0 = 0 then do
        let b4 ← pyIndex msg 4
        if b4 > 0 then liftParse .scr (StartCommunicationResponse_parse cks msg)
        else .ok none
      else .ok none

/-! ## Label loader (`Panel.load_labels` / `Panel._load_labels`)

The transport's `send_wait` with the reply predicate
`m.fields.value.po.command == 0x05 and m.fields.value.address == address` is an
external collaborator; it is modelled as a function from the requested
`(address, length)` to the optional matched reply's `fields.value.data` bytes.
Text decoding (`label.decode(cfg.LABEL_ENCODING)`, with the permissive UTF-8
fallback on `UnicodeDecodeError`) and `sanitize_key` (from
`paradox.lib.utils`, not part of the reviewed source) are likewise passed
in as opaque functions. -/

/-- The properties dict stored per index: the `template.copy()` base plus the
`id`, `key` and `label` entries written over it. -/
structure LabelEntry (α : Type) where
  template : α
  id : Nat
  key : String
  label : String
deriving DecidableEq, Repr

/-- `bytes.strip(b'\0 ')`: remove leading and trailing NUL/space bytes. -/
def stripNulSpace (l : List Nat) : List Nat :=
  ((l.dropWhile fun b => b = 0 || b = 0x20).reverse.dropWhile
    fun b => b = 0 || b = 0x20).reverse

/-- Build one index's properties from the reply data: slice
`data[label_offset:label_offset+field_length]`, strip NUL/space padding,
replace embedded NULs with spaces, decode (with lossy fallback), sanitize. -/
def mkLabelProperties {α : Type} (decodeText : List Nat → Option String)
    (decodeLossy : List Nat → String) (sanitize_key : String → String)
    (field_length label_offset : Nat) (template : α) (index : Nat)
    (data : List Nat) : LabelEntry α :=
  let b_label := stripNulSpace ((data.drop label_offset).take field_length)
  let lbl := b_label.map fun b => if b = 0 then 0x20 else b
  let label := match decodeText lbl with
    | some s => s
    | Option.none => decodeLossy lbl
  { template := template, id := index, key := sanitize_key label, label := label }

/-- `Panel._load_labels`: walk the `(index, address)` pairs in order; a
`send_wait` miss logs "Could not fully load labels" and returns at once
(the `Bool` in the result records that the error was logged); a hit stores
the built properties under `index` and continues. -/
def load_labels_from {α : Type} (send_wait : Nat → Nat → Option (List Nat))
    (decodeText : List Nat → Option String) (decodeLossy : List Nat → String)
    (sanitize_key : String → String) (field_length label_offset : Nat)
    (template : α) (addresses : List (Nat × Nat))
    (data_dict : List (Nat × LabelEntry α)) : List (Nat × LabelEntry α) × Bool :=
  match addresses with
  | [] => (data_dict, false)
  | (index, address) :: rest =>
    match send_wait address field_length with
    | Option.none => (data_dict, true)
    | some data =>
      load_labels_from send_wait decodeText decodeLossy sanitize_key field_length
        label_offset template rest
        (data_dict ++ [(index, mkLabelProperties decodeText decodeLossy sanitize_key
          field_length label_offset template index data)])

/-- One entry of `mem_map['elements']`: nested address ranges and the
label offset within each record. -/
structure ElementDef where
  addresses : List (List Nat)
  label_offset : Nat

/-- `enumerate(chain.from_iterable(elem_def['addresses']), start=1)`, filtered
by the per-category `cfg.LIMITS` allow-list when one is configured. -/
def indexedAddresses (ed : ElementDef) (limits : Option (List Nat)) : List (Nat × Nat) :=
  let addresses := ed.addresses.flatten.enumFrom 1
  match limits with
  | some l => addresses.filter fun p => p.1 ∈ l
  | Option.none => addresses

/-- `Panel.load_labels`: process the element categories in order, loading each
category into its own fresh dict (`data[elem_type]`) with `_load_labels`
(called with the default 16-byte field length and no template). -/
def load_labels (send_wait : Nat → Nat → Option (List Nat))
    (decodeText : List Nat → Option String) (decodeLossy : List Nat → String)
    (sanitize_key : String → String) (limits : String → Option (List Nat))
    (elements : List (String × ElementDef)) :
    List (String × (List (Nat × LabelEntry Unit) × Bool)) :=
  elements.map fun p =>
    (p.1, load_labels_from send_wait decodeText decodeLossy sanitize_key 16
      p.2.label_offset () (indexedAddresses p.2 (limits p.1)) [])

/-! ## Status dispatcher (`Panel.handle_status`) -/

/-- The part of a `MessageStatus` container `handle_status` reads:
`message.fields.value.address` and `message.fields.value.data`. -/
structure StatusMessage where
  address : Nat
  data : List Nat

/-- `Panel.handle_status(message, parser_map)`: an address missing from
`parser_map` logs and returns `None`; a parser exception (`Except.error`)
is caught, logged and turned into `None`; a successful parse is returned. -/
def handle_status {α : Type} (message : StatusMessage)
    (parser_map : List (Nat × (List Nat → Except String α))) : Option α :=
  match parser_map.lookup message.address with
  | Option.none => Option.none
  | some p =>
    match p message.data with
    | .ok v => some v
    | .error _ => Option.none

/-! ## Claim theorems -/

/-- A concrete checksum instance (sum of the payload bytes modulo 256) used
to instantiate the checksum-parametric theorems on concrete frames. -/
def cksSum (l : List Nat) : Nat := l.sum % 256

/-- C6: `encode_password` maps each of the 'no password' inputs `None`,
integer `0`, string `"0000"`, and bytes `b"0000"` to exactly the two zero
bytes `b"\x00\x00"`. -/
theorem C6_no_password_encodes_to_zero :
    encode_password PwInput.none = .ok [0x00, 0x00] ∧
    encode_password (.int 0) = .ok [0x00, 0x00] ∧
    encode_password (.str "0000") = .ok [0x00, 0x00] ∧
    encode_password (.bytes [0x30, 0x30, 0x30, 0x30]) = .ok [0x00, 0x00] := by
  refine ⟨rfl, rfl, ?_, ?_⟩ <;> simp [encode_password, isNoPassword]

/-- C7: `encode_password` returns a hard failure (`Except.error` with a
descriptive message) for every non-sentinel input whose normalised character
form (the zero-padded decimal string for an `int`) is not exactly 4
characters long or contains a non-digit character. -/
theorem C7_invalid_password_raises (pw : PwInput) (hnp : isNoPassword pw = false)
    (hbad : (pwChars pw).length ≠ 4 ∨ (pwChars pw).all Char.isDigit = false) :
    ∃ msg : String, encode_password pw = Except.error msg := by
  by_cases hl : (pwChars pw).length = 4
  · have hd : (pwChars pw).all Char.isDigit = false := by
      rcases hbad with h | h
      · exact absurd hl h
      · exact h
    exact ⟨"Not supported password " ++ String.mk (pwChars pw),
      by simp [encode_password, hnp, hl, hd, String.mk]⟩
  · exact ⟨"Password length must be equal to 4. Got " ++ toString (pwChars pw).length,
      by simp [encode_password, hnp, hl]⟩

/-- C7 witness: `"123"` (wrong length) and `"12a4"` (non-digit) both raise. -/
theorem C7_witness :
    (∃ msg, encode_password (.str "123") = Except.error msg) ∧
    (∃ msg, encode_password (.str "12a4") = Except.error msg) :=
  ⟨C7_invalid_password_raises (.str "123") (by decide) (Or.inl (by decide)),
   C7_invalid_password_raises (.str "12a4") (by decide) (Or.inr (by decide))⟩

/-- C8: `handle_status` returns `None` without raising when the address is
absent from `parser_map` and when the matched parser raises; when the
address is present and parsing succeeds it returns the parsed result. -/
theorem C8_handle_status_never_raises {α : Type} (message : StatusMessage)
    (parser_map : List (Nat × (List Nat → Except String α))) :
    (parser_map.lookup message.address = Option.none →
      handle_status message parser_map = Option.none) ∧
    (∀ p e, parser_map.lookup message.address = some p →
      p message.data = .error e → handle_status message parser_map = Option.none) ∧
    (∀ p v, parser_map.lookup message.address = some p →
      p message.data = .ok v → handle_status message parser_map = some v) :=
  ⟨fun h => by simp [handle_status, h],
   fun p e h he => by simp [handle_status, h, he],
   fun p v h hv => by simp [handle_status, h, hv]⟩

/-- A concrete parser map for the C8 witness: address 1 parses successfully,
address 2 always raises. -/
def pmap0 : List (Nat × (List Nat → Except String Nat)) :=
  [(1, fun _ => .ok 7), (2, fun _ => .error "Unable to parse RAM Status Block")]

/-- C8 witness: missing address 3 and raising address 2 both yield `None`;
address 1 yields the parsed result. -/
theorem C8_witness :
    handle_status ⟨3, []⟩ pmap0 = Option.none ∧
    handle_status ⟨2, []⟩ pmap0 = Option.none ∧
    handle_status ⟨1, []⟩ pmap0 = some 7 :=
  ⟨(C8_handle_status_never_raises ⟨3, []⟩ pmap0).1 rfl,
   (C8_handle_status_never_raises ⟨2, []⟩ pmap0).2.1 _ "Unable to parse RAM Status Block" rfl rfl,
   (C8_handle_status_never_raises ⟨1, []⟩ pmap0).2.2 _ 7 rfl rfl⟩

theorem char_digit_bounds (c : Char) (h : c.isDigit = true) :
    48 ≤ c.toNat ∧ c.toNat ≤ 57 := by
  unfold Char.isDigit at h
  simp at h
  exact h

/-- C3: for every valid 4-digit decimal password (digit characters, not the
`"0000"` sentinel), `encode_password` returns exactly the 2 bytes obtained by
processing the decimal digits least-significant-first, remapping digit 0 to
nibble `0x0A`, packing the first-processed digit of each pair into the low
nibble and the second (shifted left 4) into the high nibble, with the byte
index decreasing: byte 1 holds digits (c1,c0), byte 0 holds digits (c3,c2). -/
theorem C3_password_packing (c3 c2 c1 c0 : Char)
    (hd3 : c3.isDigit = true) (hd2 : c2.isDigit = true)
    (hd1 : c1.isDigit = true) (hd0 : c0.isDigit = true)
    (hzero : ¬(c3 = '0' ∧ c2 = '0' ∧ c1 = '0' ∧ c0 = '0')) :
    encode_password (.str ⟨[c3, c2, c1, c0]⟩) =
      .ok [16 * pwNibble (c3.toNat - 48) + pwNibble (c2.toNat - 48),
           16 * pwNibble (c1.toNat - 48) + pwNibble (c0.toNat - 48)] ∧
    pwNibble 0 = 0x0A ∧ (∀ d, d < 10 → pwNibble d ≠ 0x00) ∧
    (∀ bs, encode_password (.str ⟨[c3, c2, c1, c0]⟩) = .ok bs → bs.length = 2) := by
  obtain ⟨hl3, hr3⟩ := char_digit_bounds c3 hd3
  obtain ⟨hl2, hr2⟩ := char_digit_bounds c2 hd2
  obtain ⟨hl1, hr1⟩ := char_digit_bounds c1 hd1
  obtain ⟨hl0, hr0⟩ := char_digit_bounds c0 hd0
  have hs : isNoPassword (.str ⟨[c3, c2, c1, c0]⟩) = false := by
    simp only [isNoPassword, beq_eq_false_iff_ne, ne_eq]
    intro he
    have hdata : [c3, c2, c1, c0] = "0000".data := congrArg String.data he
    rw [show "0000".data = ['0', '0', '0', '0'] from rfl] at hdata
    simp only [List.cons.injEq, and_true] at hdata
    exact hzero ⟨hdata.1, hdata.2.1, hdata.2.2.1, hdata.2.2.2⟩
  have hmain : encode_password (.str ⟨[c3, c2, c1, c0]⟩) =
      .ok (encLoop (digitsToNat [c3, c2, c1, c0]) 4 1 [0, 0]) := by
    simp [encode_password, hs, pwChars, hd3, hd2, hd1, hd0]
  have hn : digitsToNat [c3, c2, c1, c0] =
      1000 * (c3.toNat - 48) + 100 * (c2.toNat - 48) +
        10 * (c1.toNat - 48) + (c0.toNat - 48) := by
    simp [digitsToNat]
    omega
  have d3 : digitsToNat [c3, c2, c1, c0] / 1000 % 10 = c3.toNat - 48 := by rw [hn]; omega
  have d2 : digitsToNat [c3, c2, c1, c0] / 100 % 10 = c2.toNat - 48 := by rw [hn]; omega
  have d1 : digitsToNat [c3, c2, c1, c0] / 10 % 10 = c1.toNat - 48 := by rw [hn]; omega
  have d0 : digitsToNat [c3, c2, c1, c0] % 10 = c0.toNat - 48 := by rw [hn]; omega
  have hfirst : encode_password (.str ⟨[c3, c2, c1, c0]⟩) =
      .ok [16 * pwNibble (c3.toNat - 48) + pwNibble (c2.toNat - 48),
           16 * pwNibble (c1.toNat - 48) + pwNibble (c0.toNat - 48)] := by
    rw [hmain, encLoop_eq, d3, d2, d1, d0]
  refine ⟨hfirst, rfl, by decide, ?_⟩
  intro bs hbs
  rw [hfirst] at hbs
  cases hbs
  rfl

/-- C3 witness: password `"1023"` (containing digit 0) packs to `[0x1A, 0x23]`:
the zero digit is encoded as nibble `0x0A`, never `0x00`. -/
theorem C3_witness : encode_password (.str "1023") = .ok [0x1A, 0x23] := by
  have h := (C3_password_packing '1' '0' '2' '3' rfl rfl rfl rfl (by decide)).1
  exact h

theorem pyIndex_some {l : List Nat} {i b : Nat} (h : l.get? i = some b) :
    pyIndex l i = .ok b := by
  rw [List.get?_eq_getElem?] at h
  simp [pyIndex, h]

theorem pyIndex_none {l : List Nat} {i : Nat} (h : l.get? i = Option.none) :
    pyIndex l i = .error .indexError := by
  rw [List.get?_eq_getElem?] at h
  simp [pyIndex, h]

theorem get0_ne_nil {l : List Nat} {b : Nat} (h : l.get? 0 = some b) : ¬ l.length = 0 := by
  cases l with
  | nil => simp at h
  | cons x xs => simp

/-- C2: classification behaviour of `parse_message`.  For `'topanel'`:
`[0x72, 0x00, ...]` parses as InitiateCommunication, else `[0x5F, ...]` as
StartCommunication, else `None`.  For any other direction: `[0x72, 0xFF, ...]`
parses as InitiateCommunicationResponse, else `[0x00, _, _, _, b4>0, ...]` as
StartCommunicationResponse, else `None`; `None` and empty buffers always
yield `None`. -/
theorem C2_parse_message_classification (cks : List Nat → Nat) (msg : List Nat)
    (d : String) :
    (parse_message cks Option.none d = .ok Option.none) ∧
    (parse_message cks (some []) d = .ok Option.none) ∧
    (msg.get? 0 = some 0x72 → msg.get? 1 = some 0x00 →
      parse_message cks (some msg) "topanel" =
        liftParse .ic (InitiateCommunication_parse cks msg)) ∧
    (msg.get? 0 = some 0x5F →
      parse_message cks (some msg) "topanel" =
        liftParse .sc (StartCommunication_parse cks msg)) ∧
    (∀ b0, msg.get? 0 = some b0 → b0 ≠ 0x72 → b0 ≠ 0x5F →
      parse_message cks (some msg) "topanel" = .ok Option.none) ∧
    (∀ b1, msg.get? 0 = some 0x72 → msg.get? 1 = some b1 → b1 ≠ 0x00 →
      parse_message cks (some msg) "topanel" = .ok Option.none) ∧
    (d ≠ "topanel" → msg.get? 0 = some 0x72 → msg.get? 1 = some 0xFF →
      parse_message cks (some msg) d =
        liftParse .icr (InitiateCommunicationResponse_parse cks msg)) ∧
    (d ≠ "topanel" → ∀ b4, msg.get? 0 = some 0x00 → msg.get? 4 = some b4 → 0 < b4 →
      parse_message cks (some msg) d =
        liftParse .scr (StartCommunicationResponse_parse cks msg)) ∧
    (d ≠ "topanel" → ∀ b0, msg.get? 0 = some b0 → b0 ≠ 0x72 → b0 ≠ 0x00 →
      parse_message cks (some msg) d = .ok Option.none) ∧
    (d ≠ "topanel" → ∀ b1, msg.get? 0 = some 0x72 → msg.get? 1 = some b1 → b1 ≠ 0xFF →
      parse_message cks (some msg) d = .ok Option.none) ∧
    (d ≠ "topanel" → msg.get? 0 = some 0x00 → msg.get? 4 = some 0 →
      parse_message cks (some msg) d = .ok Option.none) := by
  refine ⟨rfl, rfl, ?_, ?_, ?_, ?_, ?_, ?_, ?_, ?_, ?_⟩
  · intro h0 h1
    simp [parse_message, get0_ne_nil h0, pyIndex_some h0, pyIndex_some h1, ebind_ok]
  · intro h0
    simp [parse_message, get0_ne_nil h0, pyIndex_some h0, ebind_ok]
  · intro b0 h0 hne72 hne5F
    simp [parse_message, get0_ne_nil h0, pyIndex_some h0, hne72, hne5F, ebind_ok]
  · intro b1 h0 h1 hne
    simp [parse_message, get0_ne_nil h0, pyIndex_some h0, pyIndex_some h1, hne, ebind_ok]
  · intro hd h0 h1
    simp [parse_message, get0_ne_nil h0, hd, pyIndex_some h0, pyIndex_some h1, ebind_ok]
  · intro hd b4 h0 h4 hb4
    simp [parse_message, get0_ne_nil h0, hd, pyIndex_some h0, pyIndex_some h4,
      Nat.pos_iff_ne_zero.mp hb4, ebind_ok]
  · intro hd b0 h0 hne72 hne0
    simp [parse_message, get0_ne_nil h0, hd, pyIndex_some h0, hne72, hne0, ebind_ok]
  · intro hd b1 h0 h1 hne
    simp [parse_message, get0_ne_nil h0, hd, pyIndex_some h0, pyIndex_some h1, hne, ebind_ok]
  · intro hd h0 h4
    simp [parse_message, get0_ne_nil h0, hd, pyIndex_some h0, pyIndex_some h4, ebind_ok]

/-- C2 witness: each classification case at a concrete buffer. -/
theorem C2_witness :
    (parse_message cksSum (some [0x72, 0x00]) "topanel" =
      liftParse .ic (InitiateCommunication_parse cksSum [0x72, 0x00])) ∧
    (parse_message cksSum (some [0x5F]) "topanel" =
      liftParse .sc (StartCommunication_parse cksSum [0x5F])) ∧
    (parse_message cksSum (some [0xAA]) "topanel" = .ok Option.none) ∧
    (parse_message cksSum (some [0x72, 0xFF]) "frompanel" =
      liftParse .icr (InitiateCommunicationResponse_parse cksSum [0x72, 0xFF])) ∧
    (parse_message cksSum (some [0x00, 0x00, 0x00, 0x00, 0x05]) "frompanel" =
      liftParse .scr (StartCommunicationResponse_parse cksSum [0x00, 0x00, 0x00, 0x00, 0x05])) ∧
    (parse_message cksSum (some [0x00, 0x00, 0x00, 0x00, 0x00]) "frompanel" = .ok Option.none) ∧
    (parse_message cksSum Option.none "topanel" = .ok Option.none) ∧
    (parse_message cksSum (some []) "frompanel" = .ok Option.none) :=
  ⟨(C2_parse_message_classification cksSum [0x72, 0x00] "topanel").2.2.1 rfl rfl,
   (C2_parse_message_classification cksSum [0x5F] "topanel").2.2.2.1 rfl,
   (C2_parse_message_classification cksSum [0xAA] "topanel").2.2.2.2.1 0xAA rfl
     (by decide) (by decide),
   (C2_parse_message_classification cksSum [0x72, 0xFF] "frompanel").2.2.2.2.2.2.1
     (by decide) rfl rfl,
   (C2_parse_message_classification cksSum [0x00, 0x00, 0x00, 0x00, 0x05]
     "frompanel").2.2.2.2.2.2.2.1 (by decide) 5 rfl rfl (by decide),
   (C2_parse_message_classification cksSum [0x00, 0x00, 0x00, 0x00, 0x00]
     "frompanel").2.2.2.2.2.2.2.2.2.2 (by decide) rfl rfl,
   (C2_parse_message_classification cksSum [] "topanel").1,
   (C2_parse_message_classification cksSum [] "frompanel").2.1⟩

/-- C10: `parse_message` is not total on non-empty buffers: `message[1]` is
subscripted whenever `message[0] == 0x72` (either direction) and `message[4]`
whenever the direction is not `'topanel'` and `message[0] == 0x00`, without a
length check, so short buffers raise `IndexError` instead of returning `None`. -/
theorem C10_parse_message_index_error (cks : List Nat → Nat) (msg : List Nat)
    (d : String) :
    (msg.get? 0 = some 0x72 → msg.get? 1 = Option.none →
      parse_message cks (some msg) d = .error .indexError) ∧
    (d ≠ "topanel" → msg.get? 0 = some 0x00 → msg.get? 4 = Option.none →
      parse_message cks (some msg) d = .error .indexError) := by
  constructor
  · intro h0 h1
    by_cases hd : d = "topanel" <;>
      simp [parse_message, get0_ne_nil h0, hd, pyIndex_some h0, pyIndex_none h1, ebind_ok,
        ebind_err]
  · intro hd h0 h4
    simp [parse_message, get0_ne_nil h0, hd, pyIndex_some h0, pyIndex_none h4, ebind_ok,
      ebind_err]

/-- C10 witness: the 1-byte buffer `[0x72]` raises in both directions, and a
4-byte panel-to-host buffer beginning `0x00` raises on the `message[4]` access. -/
theorem C10_witness :
    (parse_message cksSum (some [0x72]) "topanel" = .error .indexError) ∧
    (parse_message cksSum (some [0x72]) "frompanel" = .error .indexError) ∧
    (parse_message cksSum (some [0x00, 0x01, 0x02, 0x03]) "frompanel" =
      .error .indexError) :=
  ⟨(C10_parse_message_index_error cksSum [0x72] "topanel").1 rfl rfl,
   (C10_parse_message_index_error cksSum [0x72] "frompanel").1 rfl rfl,
   (C10_parse_message_index_error cksSum [0x00, 0x01, 0x02, 0x03] "frompanel").2
     (by decide) rfl rfl⟩

/-- C9 counterexample: the buffer `[0x01, 0x00, 0x00, 0x00, 0x05]` has byte 0
with high nibble 0 (but low nibble 1) and byte 4 equal to 5 > 0, yet
`parse_message` classifies it as `None` rather than parsing it as a
`StartCommunicationResponse`: the code compares `message[0] == 0x00`
exactly, not the high nibble alone. -/
theorem C9_counterexample :
    [0x01, 0x00, 0x00, 0x00, 0x05].get? 0 = some 0x01 ∧ 0x01 / 16 = 0 ∧
    [0x01, 0x00, 0x00, 0x00, 0x05].get? 4 = some 0x05 ∧ 0 < 0x05 ∧
    parse_message cksSum (some [0x01, 0x00, 0x00, 0x00, 0x05]) "frompanel" =
      .ok Option.none ∧
    parse_message cksSum (some [0x01, 0x00, 0x00, 0x00, 0x05]) "frompanel" ≠
      liftParse .scr (StartCommunicationResponse_parse cksSum
        [0x01, 0x00, 0x00, 0x00, 0x05]) := by
  refine ⟨rfl, rfl, rfl, by decide, rfl, ?_⟩
  intro h
  simp [parse_message, pyIndex, liftParse, StartCommunicationResponse_parse,
    readByte, readN, ebind_ok, ebind_err, epure, cksSum] at h

/-- C9 (amended): for a direction other than `'topanel'`, every buffer whose
byte 0 equals `0x00` exactly (all four status flags clear) and whose byte 4
is greater than 0 is classified and parsed as `StartCommunicationResponse`. -/
theorem C9_amended_scr_dispatch (cks : List Nat → Nat) (msg : List Nat)
    (d : String) (hd : d ≠ "topanel") (h0 : msg.get? 0 = some 0x00)
    (b4 : Nat) (h4 : msg.get? 4 = some b4) (hb4 : 0 < b4) :
    parse_message cks (some msg) d =
      liftParse .scr (StartCommunicationResponse_parse cks msg) := by
  simp [parse_message, get0_ne_nil h0, hd, pyIndex_some h0, pyIndex_some h4,
    Nat.pos_iff_ne_zero.mp hb4, ebind_ok]

/-- C9 witness: the amended dispatch at the concrete buffer
`[0x00, 0x00, 0x00, 0x00, 0x05]`. -/
theorem C9_witness :
    parse_message cksSum (some [0x00, 0x00, 0x00, 0x00, 0x05]) "frompanel" =
      liftParse .scr (StartCommunicationResponse_parse cksSum
        [0x00, 0x00, 0x00, 0x00, 0x05]) :=
  C9_amended_scr_dispatch cksSum [0x00, 0x00, 0x00, 0x00, 0x05] "frompanel"
    (by decide) rfl 5 rfl (by decide)

/-- `StartCommunication` valid field values: wire bytes. -/
def SCValid (f : SCFields) : Prop :=
  f.source_id < 256 ∧ f.user_id_high < 256 ∧ f.user_id_low < 256

instance (f : SCFields) : Decidable (SCValid f) := by unfold SCValid; infer_instance

/-- C1: for every handshake frame type and every valid combination of its
structured field values, parsing the built frame returns the same field
values, the payload is 36 bytes, and the trailing checksum byte (index 36)
equals the checksum function applied to the raw payload bytes — so the
built frame passes checksum validation.  (`CloseConnection`'s only field is
the `Rebuild` length byte, fixed at 37 on build.) -/
theorem C1_roundtrip_all_frames (cks : List Nat → Nat) (icr : ICRFields)
    (sc : SCFields) (scr : SCRFields) (cc : CCFields)
    (hicr : ICRValid icr) (_hsc : SCValid sc) (hscr : SCRValid scr)
    (hcc : cc.length = 37) :
    (InitiateCommunication_parse cks (InitiateCommunication_build cks) = .ok () ∧
     InitiateCommunication_payload.length = 36 ∧
     (InitiateCommunication_build cks).get? 36 = some (cks InitiateCommunication_payload)) ∧
    (InitiateCommunicationResponse_parse cks
        (InitiateCommunicationResponse_build cks icr) = .ok icr ∧
     (InitiateCommunicationResponse_payload icr).length = 36 ∧
     (InitiateCommunicationResponse_build cks icr).get? 36 =
       some (cks (InitiateCommunicationResponse_payload icr))) ∧
    (StartCommunication_parse cks (StartCommunication_build cks sc) = .ok sc ∧
     (StartCommunication_payload sc).length = 36 ∧
     (StartCommunication_build cks sc).get? 36 =
       some (cks (StartCommunication_payload sc))) ∧
    (StartCommunicationResponse_parse cks
        (StartCommunicationResponse_build cks scr) = .ok scr ∧
     (StartCommunicationResponse_payload scr).length = 36 ∧
     (StartCommunicationResponse_build cks scr).get? 36 =
       some (cks (StartCommunicationResponse_payload scr))) ∧
    (CloseConnection_parse cks (CloseConnection_build cks) = .ok cc ∧
     CloseConnection_payload.length = 36 ∧
     (CloseConnection_build cks).get? 36 = some (cks CloseConnection_payload)) := by
  have hicr' := hicr
  obtain ⟨_, _, _, _, _, _, _, _, _, _, _, hsn, _, _, _, _, _, _, _, _, _, _, _,
    hr0, _, hlb, _⟩ := hicr'
  have hscr' := hscr
  obtain ⟨h3, _, _, _, _, _, _, h5, _, _, _, _, _, _, _, _, h14, _⟩ := hscr'
  have hcc' : cc = ⟨37⟩ := by cases cc; simpa using hcc
  refine ⟨⟨IC_parse_build cks, IC_payload_length, ?_⟩,
    ⟨ICR_parse_build cks icr hicr, ICR_payload_length icr hsn hr0 hlb, ?_⟩,
    ⟨SC_parse_build cks sc, SC_payload_length sc, ?_⟩,
    ⟨SCR_parse_build cks scr hscr, SCR_payload_length scr h3 h5 h14, ?_⟩,
    ⟨hcc' ▸ CC_parse_build cks, CC_payload_length, ?_⟩⟩
  · exact build_get36 _ _ IC_payload_length
  · exact build_get36 _ _ (ICR_payload_length icr hsn hr0 hlb)
  · exact build_get36 _ _ (SC_payload_length sc)
  · exact build_get36 _ _ (SCR_payload_length scr h3 h5 h14)
  · exact build_get36 _ _ CC_payload_length

/-- Concrete `InitiateCommunicationResponse` fields for witnesses. -/
def icr0 : ICRFields :=
  ⟨3, 1, 2, 3, 4, 5, 6, 1, 12, 34, 56, [10, 20, 30, 40], 7, 8, 1, 2, 3, 4, 5, 6,
   9, 11, [0, 0], [80, 65, 73, 32, 32, 32, 32, 32]⟩

/-- Concrete `StartCommunication` fields for witnesses. -/
def sc0 : SCFields := ⟨1, 0, 0⟩

/-- Concrete `StartCommunicationResponse` fields for witnesses. -/
def scr0 : SCRFields :=
  ⟨false, false, true, false, [0, 0, 0], 5, 1, 2, 3, 0x1234, [0, 0, 0, 0, 0],
   1, 2, 3, 4, 5, 0, true, false, 6, [0, 0, 0, 0, 0, 0, 0, 0, 0, 0, 0, 0, 0, 0]⟩

/-- Concrete `CloseConnection` fields for witnesses. -/
def cc0 : CCFields := ⟨37⟩

/-- C1 witness: the five round-trips at concrete valid field values under the
concrete mod-256 sum checksum. -/
theorem C1_witness :
    ICRValid icr0 ∧ SCValid sc0 ∧ SCRValid scr0 ∧ cc0.length = 37 ∧
    InitiateCommunication_parse cksSum (InitiateCommunication_build cksSum) = .ok () ∧
    InitiateCommunicationResponse_parse cksSum
      (InitiateCommunicationResponse_build cksSum icr0) = .ok icr0 ∧
    StartCommunication_parse cksSum (StartCommunication_build cksSum sc0) = .ok sc0 ∧
    StartCommunicationResponse_parse cksSum
      (StartCommunicationResponse_build cksSum scr0) = .ok scr0 ∧
    CloseConnection_parse cksSum (CloseConnection_build cksSum) = .ok cc0 :=
  ⟨by decide, by decide, by decide, rfl,
   (C1_roundtrip_all_frames cksSum icr0 sc0 scr0 cc0 (by decide) (by decide)
     (by decide) rfl).1.1,
   (C1_roundtrip_all_frames cksSum icr0 sc0 scr0 cc0 (by decide) (by decide)
     (by decide) rfl).2.1.1,
   (C1_roundtrip_all_frames cksSum icr0 sc0 scr0 cc0 (by decide) (by decide)
     (by decide) rfl).2.2.1.1,
   (C1_roundtrip_all_frames cksSum icr0 sc0 scr0 cc0 (by decide) (by decide)
     (by decide) rfl).2.2.2.1.1,
   (C1_roundtrip_all_frames cksSum icr0 sc0 scr0 cc0 (by decide) (by decide)
     (by decide) rfl).2.2.2.2.1⟩

set_option maxHeartbeats 2000000 in
/-- C4: parsing a frame whose trailing checksum byte differs from the
checksum of its 36 raw payload bytes fails hard with `checksumMismatch`
(for every frame type), this failure propagates out of `parse_message` as an
error, and an error is distinguishable from the `.ok none` produced when the
leading discriminants match no frame type. -/
theorem C4_checksum_mismatch_rejected (cks : List Nat → Nat) (c : Nat)
    (icr : ICRFields) (sc : SCFields) (scr : SCRFields)
    (hicr : ICRValid icr) (hscr : SCRValid scr) :
    (c ≠ cks InitiateCommunication_payload →
      InitiateCommunication_parse cks (InitiateCommunication_payload ++ [c]) =
        .error .checksumMismatch) ∧
    (c ≠ cks (InitiateCommunicationResponse_payload icr) →
      InitiateCommunicationResponse_parse cks
        (InitiateCommunicationResponse_payload icr ++ [c]) = .error .checksumMismatch) ∧
    (c ≠ cks (StartCommunication_payload sc) →
      StartCommunication_parse cks (StartCommunication_payload sc ++ [c]) =
        .error .checksumMismatch) ∧
    (c ≠ cks (StartCommunicationResponse_payload scr) →
      StartCommunicationResponse_parse cks
        (StartCommunicationResponse_payload scr ++ [c]) = .error .checksumMismatch) ∧
    (c ≠ cks CloseConnection_payload →
      CloseConnection_parse cks (CloseConnection_payload ++ [c]) =
        .error .checksumMismatch) ∧
    (c ≠ cks InitiateCommunication_payload →
      parse_message cks (some (InitiateCommunication_payload ++ [c])) "topanel" =
        .error .checksumMismatch) ∧
    (∀ e : PErr, (Except.error e : Except PErr (Option ParsedMsg)) ≠ .ok Option.none) := by
  have hicr' := hicr
  obtain ⟨hmc, _, _, _, _, _, _, _, _, _, _, hsn, _, _, _, _, _, _, _, _, _, _, _,
    hr0, _, hlb, _⟩ := hicr'
  have hscr' := hscr
  obtain ⟨h3, _, _, _, _, _, _, h5, _, _, _, _, _, _, _, _, h14, _⟩ := hscr'
  have hIC : c ≠ cks InitiateCommunication_payload →
      InitiateCommunication_parse cks (InitiateCommunication_payload ++ [c]) =
        .error .checksumMismatch := by
    intro hc
    simp [InitiateCommunication_payload] at hc
    simp [InitiateCommunication_parse, InitiateCommunication_payload, readByte,
      readN, ebind_ok, ethrow, emap_error, hc]
  refine ⟨hIC, ?_, ?_, ?_, ?_, ?_, fun e h => Except.noConfusion h⟩
  · intro hc
    have hdiv : (7 * 16 + icr.message_center) / 16 = 7 := by omega
    simp [InitiateCommunicationResponse_payload] at hc
    simp [InitiateCommunicationResponse_parse, InitiateCommunicationResponse_payload,
      readByte, readN_of_eq_length, hsn, hr0, hlb, hdiv, ebind_ok, ethrow, emap_error,
      List.take_append_eq_append_take, List.take_of_length_le, hc]
  · intro hc
    simp [StartCommunication_payload] at hc
    simp [StartCommunication_parse, StartCommunication_payload, readByte, readN,
      ebind_ok, ethrow, emap_error, hc]
  · intro hc
    simp [StartCommunicationResponse_payload] at hc
    simp [StartCommunicationResponse_parse, StartCommunicationResponse_payload,
      readByte, readN_of_eq_length, h3, h5, h14, SCR_byte0_div16, ebind_ok, ethrow,
      emap_error, List.take_append_eq_append_take, List.take_of_length_le, hc]
  · intro hc
    simp [CloseConnection_payload] at hc
    simp [CloseConnection_parse, CloseConnection_payload, readByte, readN,
      ebind_ok, ethrow, emap_error, hc]
  · intro hc
    have h0 : (InitiateCommunication_payload ++ [c]).get? 0 = some 0x72 := rfl
    have h1 : (InitiateCommunication_payload ++ [c]).get? 1 = some 0x00 := rfl
    simp [parse_message, get0_ne_nil h0, pyIndex_some h0, pyIndex_some h1, ebind_ok,
      hIC hc, liftParse]

/-- C4 witness: each frame type rejects a corrupted trailing byte (`0xFF`,
different from each payload's mod-256 sum), and the error is distinct from
the dispatcher's `.ok none`. -/
theorem C4_witness :
    InitiateCommunication_parse cksSum (InitiateCommunication_payload ++ [0xFF]) =
      .error .checksumMismatch ∧
    InitiateCommunicationResponse_parse cksSum
      (InitiateCommunicationResponse_payload icr0 ++ [0xFF]) = .error .checksumMismatch ∧
    StartCommunication_parse cksSum (StartCommunication_payload sc0 ++ [0xFF]) =
      .error .checksumMismatch ∧
    StartCommunicationResponse_parse cksSum
      (StartCommunicationResponse_payload scr0 ++ [0xFF]) = .error .checksumMismatch ∧
    CloseConnection_parse cksSum (CloseConnection_payload ++ [0xFF]) =
      .error .checksumMismatch ∧
    parse_message cksSum (some (InitiateCommunication_payload ++ [0xFF])) "topanel" =
      .error .checksumMismatch ∧
    (Except.error .checksumMismatch : Except PErr (Option ParsedMsg)) ≠ .ok Option.none :=
  ⟨(C4_checksum_mismatch_rejected cksSum 0xFF icr0 sc0 scr0 (by decide) (by decide)).1
     (by decide),
   (C4_checksum_mismatch_rejected cksSum 0xFF icr0 sc0 scr0 (by decide) (by decide)).2.1
     (by decide),
   (C4_checksum_mismatch_rejected cksSum 0xFF icr0 sc0 scr0 (by decide) (by decide)).2.2.1
     (by decide),
   (C4_checksum_mismatch_rejected cksSum 0xFF icr0 sc0 scr0 (by decide)
     (by decide)).2.2.2.1 (by decide),
   (C4_checksum_mismatch_rejected cksSum 0xFF icr0 sc0 scr0 (by decide)
     (by decide)).2.2.2.2.1 (by decide),
   (C4_checksum_mismatch_rejected cksSum 0xFF icr0 sc0 scr0 (by decide)
     (by decide)).2.2.2.2.2.1 (by decide),
   (C4_checksum_mismatch_rejected cksSum 0xFF icr0 sc0 scr0 (by decide)
     (by decide)).2.2.2.2.2.2 .checksumMismatch⟩

theorem load_labels_from_acc {α : Type} (send_wait : Nat → Nat → Option (List Nat))
    (decodeText : List Nat → Option String) (decodeLossy : List Nat → String)
    (sanitize_key : String → String) (field_length label_offset : Nat)
    (template : α) (index address : Nat) (post : List (Nat × Nat))
    (hmiss : send_wait address field_length = Option.none) :
    ∀ (pre : List (Nat × Nat)) (acc : List (Nat × LabelEntry α)),
      (∀ p ∈ pre, (send_wait p.2 field_length).isSome) →
      load_labels_from send_wait decodeText decodeLossy sanitize_key field_length
          label_offset template (pre ++ (index, address) :: post) acc =
        (acc ++ pre.map (fun p => (p.1, mkLabelProperties decodeText decodeLossy
          sanitize_key field_length label_offset template p.1
          ((send_wait p.2 field_length).getD []))), true) := by
  intro pre
  induction pre with
  | nil =>
    intro acc _
    simp [load_labels_from, hmiss]
  | cons p rest ih =>
    intro acc hpre
    obtain ⟨i, a⟩ := p
    obtain ⟨data, hdata⟩ := Option.isSome_iff_exists.mp (hpre (i, a) (by simp))
    simp only [List.cons_append, load_labels_from, hdata, List.append_eq]
    rw [ih _ (fun q hq => hpre q (by simp [hq]))]
    simp [hdata]

/-- C5: during one category's label load, a `send_wait` miss at some
`(index, address)` pair stops that category: exactly the indices processed
before the miss are stored (in order), nothing at or after the miss is
stored, the error is recorded (logged), and `load_labels` processes
categories independently, so categories already loaded are retained
unchanged. -/
theorem C5_label_load_abort_on_miss {α : Type}
    (send_wait : Nat → Nat → Option (List Nat))
    (decodeText : List Nat → Option String) (decodeLossy : List Nat → String)
    (sanitize_key : String → String) (field_length label_offset : Nat)
    (template : α) (pre : List (Nat × Nat)) (index address : Nat)
    (post : List (Nat × Nat))
    (hpre : ∀ p ∈ pre, (send_wait p.2 field_length).isSome)
    (hmiss : send_wait address field_length = Option.none) :
    (load_labels_from send_wait decodeText decodeLossy sanitize_key field_length
        label_offset template (pre ++ (index, address) :: post) [] =
      (pre.map (fun p => (p.1, mkLabelProperties decodeText decodeLossy sanitize_key
        field_length label_offset template p.1
        ((send_wait p.2 field_length).getD []))), true)) ∧
    ((load_labels_from send_wait decodeText decodeLossy sanitize_key field_length
        label_offset template (pre ++ (index, address) :: post) []).1.map Prod.fst =
      pre.map Prod.fst) ∧
    (∀ (limits : String → Option (List Nat))
        (cats1 cats2 : List (String × ElementDef)),
      load_labels send_wait decodeText decodeLossy sanitize_key limits
          (cats1 ++ cats2) =
        load_labels send_wait decodeText decodeLossy sanitize_key limits cats1 ++
        load_labels send_wait decodeText decodeLossy sanitize_key limits cats2) := by
  have h1 := load_labels_from_acc send_wait decodeText decodeLossy sanitize_key
    field_length label_offset template index address post hmiss pre [] hpre
  rw [List.nil_append] at h1
  refine ⟨h1, ?_, ?_⟩
  · rw [h1]
    simp
  · intro limits cats1 cats2
    simp [load_labels]

/-- Transport stub for the C5 witness: replies for addresses 1 and 3, times
out (returns nothing) for address 2. -/
def sendWait0 : Nat → Nat → Option (List Nat) :=
  fun address _ => if address = 2 then Option.none else some [76, 97, 98, 0, 0]

/-- Text decoder stub for the C5 witness (the configured encoding accepts
the bytes). -/
def decodeText0 : List Nat → Option String := fun _ => some "Lab"

/-- Lossy fallback decoder stub for the C5 witness. -/
def decodeLossy0 : List Nat → String := fun _ => "Lab"

/-- `sanitize_key` stub for the C5 witness. -/
def sanitizeKey0 : String → String := fun s => s

/-- C5 witness: one category with 3 addresses and a miss at index 2 stores
index 1 but neither 2 nor 3, and reports the logged error. -/
theorem C5_witness :
    load_labels_from sendWait0 decodeText0 decodeLossy0 sanitizeKey0 16 0 ()
        [(1, 1), (2, 2), (3, 3)] [] =
      ([(1, mkLabelProperties decodeText0 decodeLossy0 sanitizeKey0 16 0 () 1
        ((sendWait0 1 16).getD []))], true) ∧
    (load_labels_from sendWait0 decodeText0 decodeLossy0 sanitizeKey0 16 0 ()
        [(1, 1), (2, 2), (3, 3)] []).1.map Prod.fst = [1] :=
  ⟨(C5_label_load_abort_on_miss sendWait0 decodeText0 decodeLossy0 sanitizeKey0 16 0 ()
      [(1, 1)] 2 2 [(3, 3)] (by decide) rfl).1,
   (C5_label_load_abort_on_miss sendWait0 decodeText0 decodeLossy0 sanitizeKey0 16 0 ()
      [(1, 1)] 2 2 [(3, 3)] (by decide) rfl).2.1⟩
